import Mathlib

/-!
Verification of the `pura` compound-identifier resolution engine.

Shallow embedding of:
- `src/pura/compound.py` (identifier model, `CompoundIdentifier.__eq__`),
- `src/pura/resolvers.py` (`CompoundResolver._resolve`, `resolve_one_identifier`,
  `reduce_options`),
- `src/pura/services/pubchem.py` (fault classification, `get_properties`,
  `PubChem.resolve_compound` autocomplete loop).

Concurrency is embedded by making the completion order of per-input tasks an
explicit parameter; machine-level HTTP transport is abstracted behind the
per-attempt behaviour of a service, exactly at the `Service.resolve_compound`
interface boundary that the spec declares out of scope.
-/

deriving instance DecidableEq for Except

namespace Pura

/-! ### Identifier model (src/pura/compound.py, lines 7-39)

The enumeration `CompoundIdentifierType` as actually declared in
`compound.py`: seventeen members with codes 0..16. Note that the source does
NOT declare `TITLE` or `ISOMERIC_SMILES`. -/

inductive CompoundIdentifierType where
  | unspecified
  | custom
  | smiles
  | inchi
  | molblock
  | iupacName
  | name
  | casNumber
  | pubchemCid
  | chemspiderId
  | cxsmiles
  | inchiKey
  | xyz
  | uniprotId
  | pdbId
  | aminoAcidSequence
  | helm
deriving DecidableEq, Repr

/-- Numeric codes of the enum members, as assigned in `compound.py`. -/
def CompoundIdentifierType.toCode : CompoundIdentifierType → Nat
  | .unspecified => 0
  | .custom => 1
  | .smiles => 2
  | .inchi => 3
  | .molblock => 4
  | .iupacName => 5
  | .name => 6
  | .casNumber => 7
  | .pubchemCid => 8
  | .chemspiderId => 9
  | .cxsmiles => 10
  | .inchiKey => 11
  | .xyz => 12
  | .uniprotId => 13
  | .pdbId => 14
  | .aminoAcidSequence => 15
  | .helm => 16

/-- The `(member name, numeric value)` table of `CompoundIdentifierType`
exactly as written in `src/pura/compound.py` lines 8-39. -/
def compoundIdentifierTypeMembers : List (String × Nat) :=
  [("UNSPECIFIED", 0), ("CUSTOM", 1), ("SMILES", 2), ("INCHI", 3),
   ("MOLBLOCK", 4), ("IUPAC_NAME", 5), ("NAME", 6), ("CAS_NUMBER", 7),
   ("PUBCHEM_CID", 8), ("CHEMSPIDER_ID", 9), ("CXSMILES", 10),
   ("INCHI_KEY", 11), ("XYZ", 12), ("UNIPROT_ID", 13), ("PDB_ID", 14),
   ("AMINO_ACID_SEQUENCE", 15), ("HELM", 16)]

/-- The enum member names referenced by `OUTPUT_IDENTIFIER_MAP` in
`src/pura/services/pubchem.py` lines 47-55 (attribute accesses
`CompoundIdentifierType.<name>`). -/
def outputIdentifierMapKindNames : List String :=
  ["SMILES", "INCHI", "IUPAC_NAME", "INCHI_KEY", "TITLE", "PUBCHEM_CID",
   "ISOMERIC_SMILES"]

/-- `CompoundIdentifier` (src/pura/compound.py lines 54-64). -/
structure CompoundIdentifier where
  identifier_type : CompoundIdentifierType
  value : String
  details : Option String := none
deriving DecidableEq, Repr

/-- `CompoundIdentifier.__eq__` (src/pura/compound.py lines 59-64): comparing
identifiers of different kinds raises `TypeError`; otherwise the result is the
equality of the `value` strings. The raised exception is modelled as
`Except.error` carrying the message text. -/
def CompoundIdentifier.eqPy (self other : CompoundIdentifier) : Except String Bool :=
  if other.identifier_type = self.identifier_type then
    .ok (other.value = self.value)
  else
    .error "Not the same identifier type"

/-! ### Agreement algorithm (src/pura/resolvers.py, `reduce_options`, lines 229-264) -/

/-- Size-`k` combinations of a list, in the order produced by Python
`itertools.combinations` (lexicographic by position for a position-sorted
input list). -/
def combinations {α : Type} : Nat → List α → List (List α)
  | 0, _ => [[]]
  | _ + 1, [] => []
  | k + 1, x :: xs => (combinations k xs).map (x :: ·) ++ combinations (k + 1) xs

/-- Intersection of two string sets, each modelled as a duplicate-free list. -/
def listInter (a b : List String) : List String :=
  a.filter (· ∈ b)

/-- Python `reduce(set.intersection, sets)` over a non-empty list of sets;
returns `[]` on the (never exercised for quorum ≥ 1) empty input. -/
def interAll : List (List String) → List String
  | [] => []
  | s :: rest => rest.foldl listInter s

/-- One step of the loop at `resolvers.py` lines 243-248: skip empty
per-service lists, append the list of `value` strings of a non-empty one, and
overwrite `identifier_type` with the head kind of that (latest non-empty)
list. -/
def collectNonempty (acc : List (List String) × Option CompoundIdentifierType)
    (l : List CompoundIdentifier) :
    List (List String) × Option CompoundIdentifierType :=
  match l with
  | [] => acc
  | x :: rest => (acc.1 ++ [(x :: rest).map (·.value)], some x.identifier_type)

/-- Intersection of the sets selected by an index combination
(`reduce(set.intersection, [identifiers_sets[combo_i] for combo_i in combo])`
at `resolvers.py` lines 253-255). -/
def interOf (sets : List (List String)) (combo : List Nat) : List String :=
  interAll (combo.map (fun i => sets.getD i []))

/-- The intersection-search loop at `resolvers.py` lines 251-257: iterate the
combinations, keep the first non-empty intersection, else end with `[]`. -/
def reduceLoop (sets : List (List String)) : List (List Nat) → List String
  | [] => []
  | combo :: rest =>
    if (interOf sets combo).isEmpty then reduceLoop sets rest else interOf sets combo

/-- Wrapping step at `resolvers.py` lines 258-264: an empty intersection gives
`[]`; otherwise each surviving value string is re-wrapped with the retained
kind. (A non-empty intersection with no retained kind would be a Python
`NameError`; it is unreachable, see `reduce_options_kind_total`.) -/
def wrapResult (vs : List String) (kind? : Option CompoundIdentifierType) :
    List CompoundIdentifier :=
  match vs, kind? with
  | [], _ => []
  | _ :: _, none => []
  | v :: tl, some t => (v :: tl).map (fun w => ⟨t, w, none⟩)

/-- `CompoundResolver.reduce_options` (src/pura/resolvers.py lines 229-264),
embedded line by line: collect non-empty candidate lists as value strings
(remembering the kind of the latest non-empty list), form sets, scan the
size-`agreement` index combinations for the first non-empty intersection, and
wrap. -/
def reduce_options (identifiers_list : List (List CompoundIdentifier))
    (agreement : Nat) : List CompoundIdentifier :=
  let acc := identifiers_list.foldl collectNonempty ([], none)
  let identifiers_sets := acc.1.map List.dedup
  let options := List.range identifiers_sets.length
  let intersection := reduceLoop identifiers_sets (combinations agreement options)
  wrapResult intersection acc.2

/-- Spec §4.5 step 1 (retain) and step 2 (value-string sets), declaratively:
the non-empty lists of `L`, each as a set of its value strings. -/
def retainedSets (L : List (List CompoundIdentifier)) : List (List String) :=
  (L.filter (fun l => !l.isEmpty)).map (fun l => (l.map (·.value)).dedup)

/-- The output kind witnessed in the last non-empty list of `L`. -/
def lastKind (L : List (List CompoundIdentifier)) : Option CompoundIdentifierType :=
  (L.filter (fun l => !l.isEmpty)).getLast?.bind
    (fun l => l.head?.map (·.identifier_type))

/-- The output kind witnessed in the first non-empty list of `L` (the kind the
spec says is retained). -/
def firstKind (L : List (List CompoundIdentifier)) : Option CompoundIdentifierType :=
  (L.filter (fun l => !l.isEmpty)).head?.bind
    (fun l => l.head?.map (·.identifier_type))

/-- The agreement function as worded by the spec (§4.5), except that the
output kind is taken from the LAST non-empty list (the amended reading forced
by the code): discard empty lists, convert to value-string sets, enumerate
size-`k` index subsets in lexicographic order, return the first non-empty
intersection re-wrapped. -/
def agreeSpecLast (L : List (List CompoundIdentifier)) (k : Nat) :
    List CompoundIdentifier :=
  let sets := retainedSets L
  let combos := combinations k (List.range sets.length)
  wrapResult (((combos.map (interOf sets)).find? (fun s => !s.isEmpty)).getD [])
    (lastKind L)

/-- The agreement function exactly as worded by the spec (§4.5): identical to
`agreeSpecLast` but the output kind is witnessed in the FIRST non-empty
list. -/
def agreeSpecFirst (L : List (List CompoundIdentifier)) (k : Nat) :
    List CompoundIdentifier :=
  let sets := retainedSets L
  let combos := combinations k (List.range sets.length)
  wrapResult (((combos.map (interOf sets)).find? (fun s => !s.isEmpty)).getD [])
    (firstKind L)

/-! ### Structural lemmas about the agreement algorithm -/

theorem collect_foldl (L : List (List CompoundIdentifier))
    (acc1 : List (List String)) (k? : Option CompoundIdentifierType) :
    L.foldl collectNonempty (acc1, k?) =
      (acc1 ++ (L.filter (fun l => !l.isEmpty)).map (List.map CompoundIdentifier.value),
       match (L.filter (fun l => !l.isEmpty)).getLast? with
       | none => k?
       | some l => l.head?.map (·.identifier_type)) := by
  induction L generalizing acc1 k? with
  | nil => simp
  | cons x L ih =>
    match x with
    | [] => simpa [collectNonempty] using ih acc1 k?
    | a :: tl =>
      rw [List.foldl_cons]
      show L.foldl collectNonempty
          (acc1 ++ [(a :: tl).map (·.value)], some a.identifier_type) = _
      rw [ih]
      simp only [List.filter_cons, List.isEmpty_cons, Bool.not_false, if_pos]
      cases h : (List.filter (fun l => !l.isEmpty) L).getLast? with
      | none => simp [List.getLast?_cons, h, List.append_assoc]
      | some l => simp [List.getLast?_cons, h, List.append_assoc]

theorem reduceLoop_eq_find? (sets : List (List String))
    (combos : List (List Nat)) :
    reduceLoop sets combos =
      ((combos.map (interOf sets)).find? (fun s => !s.isEmpty)).getD [] := by
  induction combos with
  | nil => rfl
  | cons c rest ih =>
    rw [reduceLoop]
    by_cases h : (interOf sets c).isEmpty
    · rw [if_pos h, ih, List.map_cons, List.find?_cons_of_neg]
      simp [h]
    · rw [if_neg h, List.map_cons, List.find?_cons_of_pos]
      · simp
      · simp [h]

theorem mem_combinations {α : Type} (l : List α) (k : Nat) (c : List α) :
    c ∈ combinations k l ↔ c ∈ List.sublistsLen k l := by
  induction l generalizing k c with
  | nil => cases k <;> simp [combinations]
  | cons x xs ih =>
    cases k with
    | zero => simp [combinations]
    | succ k =>
      simp only [combinations, List.sublistsLen_succ_cons, List.mem_append,
        List.mem_map, ih]
      exact or_comm

theorem mem_combinations_iff {α : Type} (l : List α) (k : Nat) (c : List α) :
    c ∈ combinations k l ↔ c.Sublist l ∧ c.length = k := by
  rw [mem_combinations]; exact List.mem_sublistsLen

theorem interAll_concat (l : List (List String)) (s : List String) (h : l ≠ []) :
    interAll (l ++ [s]) = listInter (interAll l) s := by
  match l with
  | [] => exact absurd rfl h
  | a :: t => simp [interAll, List.foldl_append]

theorem mem_listInter_left {x : String} {a b : List String}
    (h : x ∈ listInter a b) : x ∈ a :=
  (List.mem_filter.mp h).1

theorem interAll_dropLast_ne_nil {l : List (List String)} (h2 : 2 ≤ l.length)
    (h : interAll l ≠ []) : interAll l.dropLast ≠ [] := by
  have hne : l ≠ [] := by rintro rfl; simp at h2
  have hd : l.dropLast ≠ [] := by
    have hl := List.length_dropLast l
    intro e
    rw [e] at hl
    simp at hl
    omega
  rw [← List.dropLast_append_getLast hne, interAll_concat _ _ hd] at h
  obtain ⟨y, hy⟩ := List.exists_mem_of_ne_nil _ h
  intro e
  have hmem := mem_listInter_left hy
  rw [e] at hmem
  simp at hmem

theorem wrapResult_ne_nil (vs : List String)
    (k? : Option CompoundIdentifierType) :
    wrapResult vs k? ≠ [] ↔ vs ≠ [] ∧ k? ≠ none := by
  cases vs <;> cases k? <;> simp [wrapResult]

theorem reduce_options_eq_wrap (L : List (List CompoundIdentifier)) (k : Nat) :
    reduce_options L k =
      wrapResult
        (reduceLoop (retainedSets L)
          (combinations k (List.range (retainedSets L).length)))
        (lastKind L) := by
  unfold reduce_options
  rw [collect_foldl]
  have hsets : ((L.filter (fun l => !l.isEmpty)).map
      (List.map CompoundIdentifier.value)).map List.dedup = retainedSets L := by
    rw [retainedSets, List.map_map]
    rfl
  cases h : (List.filter (fun l => !l.isEmpty) L).getLast? with
  | none => simp [h, hsets, lastKind]
  | some l => simp [h, hsets, lastKind]

theorem reduceLoop_ne_nil_iff (sets : List (List String))
    (combos : List (List Nat)) :
    reduceLoop sets combos ≠ [] ↔ ∃ c ∈ combos, interOf sets c ≠ [] := by
  induction combos with
  | nil => simp [reduceLoop]
  | cons c rest ih =>
    rw [reduceLoop]
    by_cases h : (interOf sets c).isEmpty
    · have he : interOf sets c = [] := by simpa using h
      rw [if_pos h, ih]
      simp [he]
    · have he : interOf sets c ≠ [] := by simpa using h
      rw [if_neg h]
      simp [he]

/-- C7: quorum monotonicity of the agreement function. If `reduce_options`
returns a non-empty list at quorum `k ≥ 2`, it also returns a non-empty list
at quorum `k - 1`. -/
theorem c7_quorum_monotonicity (L : List (List CompoundIdentifier)) (k : Nat)
    (hk : 2 ≤ k) (h : reduce_options L k ≠ []) :
    reduce_options L (k - 1) ≠ [] := by
  rw [reduce_options_eq_wrap] at h ⊢
  rw [wrapResult_ne_nil] at h ⊢
  obtain ⟨h1, h2⟩ := h
  refine ⟨?_, h2⟩
  rw [reduceLoop_ne_nil_iff] at h1 ⊢
  obtain ⟨c, hmem, hne⟩ := h1
  rw [mem_combinations_iff] at hmem
  obtain ⟨hsub, hlen⟩ := hmem
  refine ⟨c.dropLast, ?_, ?_⟩
  · rw [mem_combinations_iff]
    exact ⟨(List.dropLast_sublist c).trans hsub,
      by rw [List.length_dropLast, hlen]⟩
  · unfold interOf at hne ⊢
    rw [List.map_dropLast]
    apply interAll_dropLast_ne_nil _ hne
    rw [List.length_map, hlen]
    exact hk

/-- Witness for C7 at a concrete input: two services that agree on the value
string give a non-empty agreement at quorum 2, hence also at quorum 1. -/
theorem c7_quorum_monotonicity_witness :
    reduce_options [[⟨.smiles, "A", none⟩], [⟨.smiles, "A", none⟩]] 1 ≠ [] :=
  c7_quorum_monotonicity [[⟨.smiles, "A", none⟩], [⟨.smiles, "A", none⟩]] 2
    (by decide) (by decide)

/-! ### Claim C2: the agreement function versus the spec wording -/

/-- A candidate-list input on which the code disagrees with the spec wording:
the first non-empty list carries kind SMILES, the last carries kind INCHI. -/
def c2L : List (List CompoundIdentifier) :=
  [[⟨.smiles, "A", none⟩], [⟨.inchi, "B", none⟩]]

/-- C2 counterexample: the claim says the returned identifiers carry the kind
witnessed in the FIRST non-empty list, but `reduce_options` wraps them with
the kind of the LAST non-empty list (the loop at resolvers.py line 248
overwrites `identifier_type` on every non-empty list). At `c2L` with quorum 1
the code returns value "A" wrapped as INCHI, while the spec wording demands
SMILES. -/
theorem c2_agreement_counterexample :
    reduce_options c2L 1 = [⟨.inchi, "A", none⟩] ∧
    agreeSpecFirst c2L 1 = [⟨.smiles, "A", none⟩] ∧
    reduce_options c2L 1 ≠ agreeSpecFirst c2L 1 := by
  decide

/-- C2 amended: `reduce_options` behaves exactly as the spec's agreement
procedure (discard empties, value-string sets, lexicographic size-k index
subsets, first non-empty intersection, empty on failure) — except that the
re-wrapping kind is the one witnessed in the LAST non-empty list, not the
first. -/
theorem c2_agreement_amended (L : List (List CompoundIdentifier)) (k : Nat) :
    reduce_options L k = agreeSpecLast L k := by
  rw [reduce_options_eq_wrap]
  unfold agreeSpecLast
  rw [reduceLoop_eq_find?]

/-! ### Claim C8: identifier equality -/

/-- C8: `CompoundIdentifier.__eq__` returns `True` exactly when the kinds are
identical and the value strings are identical, and raises (`Except.error`)
whenever the kinds differ instead of silently returning `False`. -/
theorem c8_eq_raises_on_kind_mismatch (a b : CompoundIdentifier) :
    (a.eqPy b = .ok true ↔
      a.identifier_type = b.identifier_type ∧ a.value = b.value) ∧
    (a.identifier_type ≠ b.identifier_type → ∃ msg, a.eqPy b = .error msg) := by
  constructor
  · unfold CompoundIdentifier.eqPy
    by_cases h : b.identifier_type = a.identifier_type
    · simp only [if_pos h, Except.ok.injEq, decide_eq_true_eq]
      constructor
      · intro hv
        exact ⟨h.symm, hv.symm⟩
      · rintro ⟨-, hv⟩
        exact hv.symm
    · simp only [if_neg h]
      constructor
      · intro he
        exact Except.noConfusion he
      · rintro ⟨hk, -⟩
        exact absurd hk.symm h
  · intro h
    refine ⟨"Not the same identifier type", ?_⟩
    unfold CompoundIdentifier.eqPy
    rw [if_neg (fun e => h e.symm)]

/-- Witness for C8 at concrete identifiers of differing kind. -/
theorem c8_eq_raises_on_kind_mismatch_witness :
    ∃ msg, CompoundIdentifier.eqPy ⟨.smiles, "A", none⟩ ⟨.inchi, "A", none⟩ =
      .error msg :=
  (c8_eq_raises_on_kind_mismatch ⟨.smiles, "A", none⟩ ⟨.inchi, "A", none⟩).2
    (by decide)

/-! ### Claim C9: the kind enumeration versus the PubChem output table -/

/-- C9: the enumeration in `compound.py` has seventeen members, not nineteen:
`TITLE` and `ISOMERIC_SMILES` are absent, yet both are referenced by
`OUTPUT_IDENTIFIER_MAP` in `pubchem.py` (an `AttributeError` at import time),
so not every kind referenced by the output translation table is a member. -/
theorem c9_enum_members_mismatch :
    compoundIdentifierTypeMembers.length = 17 ∧
    "TITLE" ∉ compoundIdentifierTypeMembers.map Prod.fst ∧
    "ISOMERIC_SMILES" ∉ compoundIdentifierTypeMembers.map Prod.fst ∧
    "TITLE" ∈ outputIdentifierMapKindNames ∧
    "ISOMERIC_SMILES" ∈ outputIdentifierMapKindNames ∧
    ¬ (∀ n ∈ outputIdentifierMapKindNames,
        n ∈ compoundIdentifierTypeMembers.map Prod.fst) := by
  decide

/-! ### Exception classes and the PubChem fault classification
(src/pura/services/pubchem.py lines 267-335, src/pura/resolvers.py lines 23-45)

`ExcClass` enumerates the exception classes a service call can raise at the
resolver's two `except` clauses. `inAiohttpErrors` reflects membership in (or
subclassing of a member of) the module-level `aiohttp_errors` tuple of
resolvers.py lines 23-45: of the `aiohttp.web_exceptions` classes raised by
the PubChem adapter only `HTTPServiceUnavailable` appears there;
`HTTPGatewayTimeout`, `HTTPInternalServerError`, `HTTPBadRequest`,
`HTTPMethodNotAllowed` and `HTTPNotImplemented` are subclasses of
`HTTPClientError`/`HTTPServerError` but of no member of the tuple, so they
reach the second `except` clause. `valueError` stands for the exceptions
caught by NEITHER clause — such as the `ValueError` that
`PubChem.resolve_compound` raises for an unsupported input kind (pubchem.py
lines 130-133) or an invalid output-kind list (lines 141-144), and the one
`request` raises for an empty identifier (lines 283-284) — which therefore
propagate out of `resolve_one_identifier` regardless of the `silent` flag. -/

inductive ExcClass where
  | httpBadRequest
  | httpNotFound
  | httpMethodNotAllowed
  | httpGatewayTimeout
  | httpServiceUnavailable
  | httpNotImplemented
  | httpInternalServerError
  | clientConnectionError
  | valueError
deriving DecidableEq, Repr

/-- Membership of the exception class in the `aiohttp_errors` tuple
(resolvers.py lines 23-45), which is caught first and retried. -/
def inAiohttpErrors : ExcClass → Bool
  | .httpServiceUnavailable => true
  | .clientConnectionError => true
  | _ => false

/-- Subclassing of `aiohttp.web_exceptions.HTTPClientError` or
`HTTPServerError`, the union caught by the second `except` clause
(resolvers.py line 200). -/
def isHTTPClientOrServerError : ExcClass → Bool
  | .httpBadRequest => true
  | .httpNotFound => true
  | .httpMethodNotAllowed => true
  | .httpGatewayTimeout => true
  | .httpServiceUnavailable => true
  | .httpNotImplemented => true
  | .httpInternalServerError => true
  | .clientConnectionError => false
  | .valueError => false

/-- The fault-code dispatch of `request` (pubchem.py lines 319-334): the
exception class raised for a response carrying a `Fault` object with the
given code, `none` when no branch matches (the response is returned). -/
def classifyFault (code : String) : Option ExcClass :=
  if code = "PUGREST.BadRequest" then some .httpBadRequest
  else if code = "PUGREST.NotFound" then some .httpNotFound
  else if code = "PUGREST.NotAllowed" then some .httpMethodNotAllowed
  else if code = "PUGREST.Timeout" then some .httpGatewayTimeout
  else if code = "PUGREST.ServerBusy" then some .httpServiceUnavailable
  else if code = "PUGREST.Unimplemented" then some .httpNotImplemented
  else if code = "PUGREST.ServerError" then some .httpInternalServerError
  else if code = "PUGREST.Unknown" then some .httpInternalServerError
  else none

/-- A PubChem response at the granularity `get_properties` consumes: a
possible fault code and the `PropertyTable.Properties` rows, each row a list
of (property name, string value) pairs. -/
structure PubChemResponse where
  faultCode : Option String
  properties : List (List (String × String))

/-- The fault handling of `request` (pubchem.py lines 317-335): raise the
classified exception, otherwise return the response. -/
def request_model (resp : PubChemResponse) : Except ExcClass PubChemResponse :=
  match resp.faultCode.bind classifyFault with
  | some e => .error e
  | none => .ok resp

/-- `get_properties` (pubchem.py lines 195-235): `HTTPNotFound` is caught and
yields an empty row list without retrying or raising; other exceptions
propagate; a clean response yields its property rows. -/
def get_properties_model (resp : PubChemResponse) :
    Except ExcClass (List (List (String × String))) :=
  match request_model resp with
  | .error .httpNotFound => .ok []
  | .error e => .error e
  | .ok r => .ok r.properties

/-! ### Per-input resolution (src/pura/resolvers.py, `resolve_one_identifier`,
lines 171-227)

A service's observable behaviour for one fixed input is the outcome of each
attempt `j`: either the resolved candidate list or a raised exception class.
This sits exactly at the abstract `Service.resolve_compound` boundary; the
`Service` base class itself lives outside `src/`. -/

inductive AttemptResult where
  | success (ids : List CompoundIdentifier)
  | exc (e : ExcClass)

/-- The per-attempt behaviour of one service on the one input under
consideration. -/
structure Service where
  behavior : Nat → AttemptResult

inductive RetryOutcome where
  | succeeded (ids : List CompoundIdentifier)
  | raised (e : ExcClass)
  | exhausted
deriving DecidableEq, Repr

/-- Trace of one `for j in range(n_retries)` loop: the outcome, the number of
attempts issued, and the seconds slept (one `2 ** j` entry per transient
failure, resolvers.py lines 196-199). -/
structure RetryTrace where
  outcome : RetryOutcome
  attempts : Nat
  sleeps : List Nat
deriving DecidableEq, Repr

/-- The retry loop from attempt `j` with `fuel` attempts remaining
(resolvers.py lines 183-206): a success breaks out, an `aiohttp_errors`
member sleeps `2 ** j` seconds and continues, any other caught exception is
raised to the caller of the loop. -/
def runRetriesFrom (b : Nat → AttemptResult) : Nat → Nat → RetryTrace
  | 0, _ => ⟨.exhausted, 0, []⟩
  | fuel + 1, j =>
    match b j with
    | .success ids => ⟨.succeeded ids, 1, []⟩
    | .exc e =>
      if inAiohttpErrors e then
        let t := runRetriesFrom b fuel (j + 1)
        ⟨t.outcome, t.attempts + 1, 2 ^ j :: t.sleeps⟩
      else ⟨.raised e, 1, []⟩

/-- The whole `for j in range(n_retries)` loop of `resolve_one_identifier`. -/
def runRetries (b : Nat → AttemptResult) (nRetries : Nat) : RetryTrace :=
  runRetriesFrom b nRetries 0

/-- Modelled from the spec: `standardize_identifier` is imported from
`pura.compound` (resolvers.py line 5) but not defined under `src/`; the spec
(§4.4, §9) requires only a deterministic, idempotent normalization with a
no-op default, which is what we take. -/
def standardize_identifier (c : CompoundIdentifier) : CompoundIdentifier := c

/-- The error values `resolve_one_identifier` can propagate: an exception
escaping the retry loop — re-raised by the strict-mode branch at line 206 or
caught by neither `except` clause and propagating on its own — the
`TypeError` for insufficient agreement (line 225) carrying its message, or
Python's `UnboundLocalError` for the unreachable `return
resolved_identifiers` with the variable never assigned. -/
inductive RErr where
  | httpExc (e : ExcClass)
  | quorum (msg : String)
  | unbound
deriving DecidableEq, Repr

/-- Rendering of one resolved identifier inside the f-string of resolvers.py
line 220 (the exact Python `repr` text is abstracted to the value string). -/
def renderIdentifierList (l : List CompoundIdentifier) : String :=
  "[" ++ String.intercalate ", " (l.map (·.value)) ++ "]"

/-- Rendering of `resolved_identifiers_list` inside the f-string of
resolvers.py line 220; faithful on the empty list (`"[]"`). -/
def renderCollected (ls : List (List CompoundIdentifier)) : String :=
  "[" ++ String.intercalate ", " (ls.map renderIdentifierList) ++ "]"

/-- The message of the `TypeError` raised at resolvers.py lines 220-225,
including its spelling of "agreeement". -/
def notSufficientMsg (count : Nat) (collected : List (List CompoundIdentifier)) :
    String :=
  "Not sufficient agreeement (" ++ toString count ++ ") for " ++
    renderCollected collected

/-- The local state of the service loop of `resolve_one_identifier`:
`agreement_count`, `resolved_identifiers_list`, and the current value of the
`resolved_identifiers` variable (`none` = still unbound). -/
structure LoopState where
  count : Nat
  collected : List (List CompoundIdentifier)
  resolvedOpt : Option (List CompoundIdentifier)

/-- The agreement check after each service (resolvers.py lines 208-215):
with at least two services visited and something collected, recompute
`resolved_identifiers` via `reduce_options` and bump the count; with only the
first service visited and something collected, just bump the count. -/
def agreementStep (agreement i : Nat) (st : LoopState) : LoopState :=
  if 0 < i ∧ 0 < st.collected.length then
    { st with
      resolvedOpt := some (reduce_options st.collected agreement),
      count := st.count + 1 }
  else if 0 < st.collected.length then
    { st with count := st.count + 1 }
  else st

/-- The epilogue of `resolve_one_identifier` (lines 219-227), reached by
`break` or by running out of services: insufficient agreement raises (strict)
or returns `None` (silent); otherwise the current `resolved_identifiers` is
returned (`RErr.unbound` marks the unreachable unassigned case). -/
def finishResolve (silent : Bool) (agreement : Nat) (st : LoopState) :
    Except RErr (Option (List CompoundIdentifier)) :=
  if st.count < agreement then
    if silent then .ok none
    else .error (.quorum (notSufficientMsg st.count st.collected))
  else
    match st.resolvedOpt with
    | some ids => .ok (some ids)
    | none => .error .unbound

/-- The `for i, service in enumerate(self._services)` loop of
`resolve_one_identifier` (lines 182-217). An exception escaping the retry
loop is, when it is an `HTTPClientError`/`HTTPServerError` (second `except`
clause, lines 200-206), logged and turned into a `None` return in silent
mode or re-raised in strict mode; an exception caught by neither clause
(e.g. `valueError`) propagates regardless of `silent`; a successful service
appends its standardized candidates and assigns `resolved_identifiers`; an
exhausted retry budget leaves the state untouched; afterwards the agreement
check runs and the loop breaks once `agreement_count >= agreement`. -/
def resolveOneLoop (silent : Bool) (agreement nRetries : Nat) :
    List Service → Nat → LoopState → Except RErr (Option (List CompoundIdentifier))
  | [], _, st => finishResolve silent agreement st
  | s :: rest, i, st =>
    match (runRetries s.behavior nRetries).outcome with
    | .raised e =>
      if silent then
        if isHTTPClientOrServerError e then .ok none else .error (.httpExc e)
      else .error (.httpExc e)
    | .succeeded ids =>
      let ids2 := ids.map standardize_identifier
      let st1 : LoopState :=
        { count := st.count,
          collected := st.collected ++ [ids2],
          resolvedOpt := some ids2 }
      let st2 := agreementStep agreement i st1
      if agreement ≤ st2.count then finishResolve silent agreement st2
      else resolveOneLoop silent agreement nRetries rest (i + 1) st2
    | .exhausted =>
      let st2 := agreementStep agreement i st
      if agreement ≤ st2.count then finishResolve silent agreement st2
      else resolveOneLoop silent agreement nRetries rest (i + 1) st2

/-- `CompoundResolver.resolve_one_identifier` (resolvers.py lines 171-227)
for one input: the input identifier itself is only forwarded to the services
(their behaviour already fixes it) and appears nowhere else — in particular
not in the insufficient-agreement message. -/
def resolve_one_identifier (silent : Bool) (agreement nRetries : Nat)
    (services : List Service) : Except RErr (Option (List CompoundIdentifier)) :=
  resolveOneLoop silent agreement nRetries services 0 ⟨0, [], none⟩

/-! ### Lemmas about the retry loop -/

theorem runRetriesFrom_attempts_le (b : Nat → AttemptResult) :
    ∀ fuel j, (runRetriesFrom b fuel j).attempts ≤ fuel := by
  intro fuel
  induction fuel with
  | zero => intro j; simp [runRetriesFrom]
  | succ m ih =>
    intro j
    cases hbj : b j with
    | success ids => simp [runRetriesFrom, hbj]
    | exc e =>
      by_cases he : inAiohttpErrors e
      · simp only [runRetriesFrom, hbj, he, if_pos]
        exact Nat.succ_le_succ (ih (j + 1))
      · simp [runRetriesFrom, hbj, he]

theorem runRetriesFrom_raised (b : Nat → AttemptResult) :
    ∀ fuel j e, (runRetriesFrom b fuel j).outcome = .raised e →
      inAiohttpErrors e = false := by
  intro fuel
  induction fuel with
  | zero => intro j e h; simp [runRetriesFrom] at h
  | succ m ih =>
    intro j e h
    cases hbj : b j with
    | success ids => simp [runRetriesFrom, hbj] at h
    | exc e' =>
      by_cases he : inAiohttpErrors e'
      · simp only [runRetriesFrom, hbj, he, if_pos] at h
        exact ih (j + 1) e h
      · simp only [runRetriesFrom, hbj, he, Bool.false_eq_true, if_neg,
          not_false_iff, RetryOutcome.raised.injEq] at h
        subst h
        simpa using he

theorem runRetries_succeeds (b : Nat → AttemptResult) (n : Nat)
    (ids : List CompoundIdentifier) (hb : b 0 = .success ids) (hn : 0 < n) :
    runRetries b n = ⟨.succeeded ids, 1, []⟩ := by
  unfold runRetries
  cases n with
  | zero => omega
  | succ m => simp [runRetriesFrom, hb]

theorem runRetries_raises (b : Nat → AttemptResult) (n : Nat) (e : ExcClass)
    (hb : b 0 = .exc e) (hne : inAiohttpErrors e = false) (hn : 0 < n) :
    runRetries b n = ⟨.raised e, 1, []⟩ := by
  unfold runRetries
  cases n with
  | zero => omega
  | succ m => simp [runRetriesFrom, hb, hne]

theorem runRetriesFrom_busy :
    ∀ fuel j, runRetriesFrom (fun _ => .exc .httpServiceUnavailable) fuel j =
      ⟨.exhausted, fuel, (List.range fuel).map (fun m => 2 ^ (j + m))⟩ := by
  intro fuel
  induction fuel with
  | zero => intro j; simp [runRetriesFrom]
  | succ m ih =>
    intro j
    simp only [runRetriesFrom, inAiohttpErrors, if_pos, ih (j + 1)]
    refine congrArg (RetryTrace.mk .exhausted (m + 1)) ?_
    rw [List.range_succ_eq_map, List.map_cons, List.map_map]
    refine congrArg₂ List.cons (by rw [Nat.add_zero]) ?_
    apply List.map_congr_left
    intro x _
    show 2 ^ (j + 1 + x) = 2 ^ (j + (x + 1))
    congr 1
    omega

theorem runRetries_busy (n : Nat) :
    runRetries (fun _ => .exc .httpServiceUnavailable) n =
      ⟨.exhausted, n, (List.range n).map (fun j => 2 ^ j)⟩ := by
  rw [runRetries, runRetriesFrom_busy]
  refine congrArg (RetryTrace.mk .exhausted n) ?_
  apply List.map_congr_left
  intro x _
  rw [Nat.zero_add]

/-! ### Lemmas about the service loop of `resolve_one_identifier` -/

theorem map_standardize (l : List CompoundIdentifier) :
    l.map standardize_identifier = l :=
  List.map_id' l

theorem resolveOneLoop_cons_raised (silent : Bool) (agreement nR : Nat)
    (s : Service) (rest : List Service) (i : Nat) (st : LoopState)
    (e : ExcClass) (h : (runRetries s.behavior nR).outcome = .raised e) :
    resolveOneLoop silent agreement nR (s :: rest) i st =
      if silent then
        if isHTTPClientOrServerError e then .ok none
        else .error (.httpExc e)
      else .error (.httpExc e) := by
  rw [resolveOneLoop, h]

theorem resolveOneLoop_cons_succeeded (silent : Bool) (agreement nR : Nat)
    (s : Service) (rest : List Service) (i : Nat) (st : LoopState)
    (ids : List CompoundIdentifier)
    (h : (runRetries s.behavior nR).outcome = .succeeded ids) :
    resolveOneLoop silent agreement nR (s :: rest) i st =
      if agreement ≤ (agreementStep agreement i
          ⟨st.count, st.collected ++ [ids.map standardize_identifier],
            some (ids.map standardize_identifier)⟩).count then
        finishResolve silent agreement (agreementStep agreement i
          ⟨st.count, st.collected ++ [ids.map standardize_identifier],
            some (ids.map standardize_identifier)⟩)
      else
        resolveOneLoop silent agreement nR rest (i + 1) (agreementStep agreement i
          ⟨st.count, st.collected ++ [ids.map standardize_identifier],
            some (ids.map standardize_identifier)⟩) := by
  rw [resolveOneLoop, h]

theorem resolveOneLoop_cons_exhausted (silent : Bool) (agreement nR : Nat)
    (s : Service) (rest : List Service) (i : Nat) (st : LoopState)
    (h : (runRetries s.behavior nR).outcome = .exhausted) :
    resolveOneLoop silent agreement nR (s :: rest) i st =
      if agreement ≤ (agreementStep agreement i st).count then
        finishResolve silent agreement (agreementStep agreement i st)
      else
        resolveOneLoop silent agreement nR rest (i + 1)
          (agreementStep agreement i st) := by
  rw [resolveOneLoop, h]

theorem agreementStep_eq_of_nil (agreement i : Nat) (st : LoopState)
    (h : st.collected = []) : agreementStep agreement i st = st := by
  unfold agreementStep
  rw [h]
  simp

theorem agreementStep_append (agreement i cnt : Nat)
    (col : List (List CompoundIdentifier)) (ids2 : List CompoundIdentifier) :
    (agreementStep agreement i ⟨cnt, col ++ [ids2], some ids2⟩).count = cnt + 1 ∧
    (agreementStep agreement i ⟨cnt, col ++ [ids2], some ids2⟩).collected =
      col ++ [ids2] ∧
    (agreementStep agreement i ⟨cnt, col ++ [ids2], some ids2⟩).resolvedOpt.isSome := by
  unfold agreementStep
  by_cases h1 : 0 < i ∧ 0 < (LoopState.mk cnt (col ++ [ids2]) (some ids2)).collected.length
  · rw [if_pos h1]
    exact ⟨rfl, rfl, rfl⟩
  · rw [if_neg h1, if_pos (by simp)]
    exact ⟨rfl, rfl, rfl⟩

theorem agreementStep_of_nonempty (agreement i : Nat) (st : LoopState)
    (h : 0 < st.collected.length) :
    (agreementStep agreement i st).count = st.count + 1 ∧
    (agreementStep agreement i st).collected = st.collected ∧
    ((agreementStep agreement i st).resolvedOpt = st.resolvedOpt ∨
      (agreementStep agreement i st).resolvedOpt =
        some (reduce_options st.collected agreement)) := by
  unfold agreementStep
  by_cases h1 : 0 < i ∧ 0 < st.collected.length
  · rw [if_pos h1]
    exact ⟨rfl, rfl, Or.inr rfl⟩
  · rw [if_neg h1, if_pos h]
    exact ⟨rfl, rfl, Or.inl rfl⟩

theorem resolveOneLoop_all_exhausted (silent : Bool) (agreement nR : Nat)
    (h1 : 1 ≤ agreement) :
    ∀ (ss : List Service) (i : Nat),
      (∀ s ∈ ss, (runRetries s.behavior nR).outcome = .exhausted) →
      resolveOneLoop silent agreement nR ss i ⟨0, [], none⟩ =
        finishResolve silent agreement ⟨0, [], none⟩ := by
  intro ss
  induction ss with
  | nil => intro i _; rfl
  | cons s rest ih =>
    intro i hex
    rw [resolveOneLoop_cons_exhausted silent agreement nR s rest i _
      (hex s (by simp))]
    rw [agreementStep_eq_of_nil agreement i _ rfl]
    rw [if_neg (by simp; omega)]
    exact ih (i + 1) (fun s' hs' => hex s' (by simp [hs']))

/-- The first-attempt candidate list of a service (used to describe the
collected lists when every service answers on its first attempt). -/
def firstSuccessIds (s : Service) : List CompoundIdentifier :=
  match s.behavior 0 with
  | .success ids => ids
  | .exc _ => []

theorem resolveOneLoop_all_success (agreement nR : Nat) (hn : 0 < nR) :
    ∀ (ss : List Service),
      (∀ s ∈ ss, ∃ ids, s.behavior 0 = .success ids) →
      ∀ (i : Nat) (st : LoopState), st.count < agreement →
      (st.count + ss.length < agreement →
        resolveOneLoop false agreement nR ss i st =
          .error (.quorum (notSufficientMsg (st.count + ss.length)
            (st.collected ++ ss.map firstSuccessIds)))) ∧
      (agreement ≤ st.count + ss.length →
        ∃ r, resolveOneLoop false agreement nR ss i st = .ok (some r)) := by
  intro ss
  induction ss with
  | nil =>
    intro _ i st hlt
    constructor
    · intro _
      rw [resolveOneLoop, finishResolve, if_pos hlt]
      simp
    · intro habs
      simp at habs
      omega
  | cons s rest ih =>
    intro hs i st hlt
    obtain ⟨ids, hids⟩ := hs s (by simp)
    have hfirst : firstSuccessIds s = ids := by
      unfold firstSuccessIds
      rw [hids]
    have hout : (runRetries s.behavior nR).outcome = .succeeded ids := by
      rw [runRetries_succeeds s.behavior nR ids hids hn]
    rw [resolveOneLoop_cons_succeeded false agreement nR s rest i st ids hout,
      map_standardize]
    obtain ⟨hcnt, hcol, hsome⟩ :=
      agreementStep_append agreement i st.count st.collected ids
    constructor
    · intro hless
      simp only [List.length_cons] at hless
      rw [if_neg (by omega)]
      have hrec := (ih (fun s' hs' => hs s' (by simp [hs'])) (i + 1)
        (agreementStep agreement i ⟨st.count, st.collected ++ [ids], some ids⟩)
        (by omega)).1 (by omega)
      rw [hrec]
      have harith : (agreementStep agreement i
          ⟨st.count, st.collected ++ [ids], some ids⟩).count + rest.length =
          st.count + (s :: rest).length := by
        rw [hcnt]
        simp only [List.length_cons]
        omega
      rw [harith, hcol]
      have hcollected : (st.collected ++ [ids]) ++ rest.map firstSuccessIds =
          st.collected ++ (s :: rest).map firstSuccessIds := by
        rw [List.map_cons, hfirst, List.append_assoc, List.singleton_append]
      rw [hcollected]
    · intro hge
      simp only [List.length_cons] at hge
      by_cases hbr : agreement ≤ (agreementStep agreement i
          ⟨st.count, st.collected ++ [ids], some ids⟩).count
      · rw [if_pos hbr]
        unfold finishResolve
        rw [if_neg (by omega)]
        cases hres : (agreementStep agreement i
            ⟨st.count, st.collected ++ [ids], some ids⟩).resolvedOpt with
        | none =>
          rw [hres] at hsome
          simp at hsome
        | some r => exact ⟨r, rfl⟩
      · rw [if_neg hbr]
        exact (ih (fun s' hs' => hs s' (by simp [hs'])) (i + 1)
          (agreementStep agreement i ⟨st.count, st.collected ++ [ids], some ids⟩)
          (by omega)).2 (by omega)

/-! ### Concrete services for counterexamples and witnesses -/

/-- A service that answers immediately with an empty candidate list (a clean
not-found answer). -/
def svcEmptyOk : Service := ⟨fun _ => .success []⟩

/-- A service whose every attempt fails with `HTTPServiceUnavailable`
(provider ServerBusy, a member of `aiohttp_errors`). -/
def svcBusy : Service := ⟨fun _ => .exc .httpServiceUnavailable⟩

/-- A service whose first attempt fails with `HTTPBadRequest` (provider
BadRequest, a client error). -/
def svcBadRequest : Service := ⟨fun _ => .exc .httpBadRequest⟩

/-- A service whose first attempt fails with `HTTPGatewayTimeout` (provider
Timeout fault). -/
def svcTimeoutFault : Service := ⟨fun _ => .exc .httpGatewayTimeout⟩

/-- A service that answers immediately with one SMILES candidate. -/
def svcAspirin : Service :=
  ⟨fun _ => .success [⟨.smiles, "CC(=O)OC1=CC=CC=C1C(=O)O", none⟩]⟩

/-- Decides whether `needle` is a prefix of `hay` (character lists). -/
def startsWithSeq : List Char → List Char → Bool
  | [], _ => true
  | _ :: _, [] => false
  | a :: as, b :: bs => a = b && startsWithSeq as bs

/-- Decides whether `needle` occurs contiguously anywhere inside `hay`. -/
def containsSeq (needle : List Char) : List Char → Bool
  | [] => startsWithSeq needle []
  | c :: rest => startsWithSeq needle (c :: rest) || containsSeq needle rest

/-! ### Claim C3: strict-mode quorum failure -/

/-- C3 counterexample. First conjunct: two services that both respond with
empty candidate lists satisfy a quorum of 2, so in strict mode
`resolve_one_identifier` silently accepts the empty reduced result instead of
raising — a quorum reached only by services that returned empty lists IS
silently accepted. Remaining conjuncts: when the quorum failure is raised
(here: the only service exhausts its retries), its message is built solely
from the agreement count and the collected lists, and does not name the input
identifier (here "aspirin"). -/
theorem c3_strict_quorum_counterexample :
    resolve_one_identifier false 2 7 [svcEmptyOk, svcEmptyOk] = .ok (some []) ∧
    resolve_one_identifier false 1 7 [svcBusy] =
      .error (.quorum "Not sufficient agreeement (0) for []") ∧
    containsSeq "aspirin".toList
      "Not sufficient agreeement (0) for []".toList = false := by
  decide

/-- C3 amended: in strict mode, for services that respond on their first
attempt, `resolve_one_identifier` raises the quorum `TypeError` exactly when
fewer than quorum-many services were visited; the message names the achieved
agreement count and the collected per-service candidate lists (not the
input); services responding with empty lists count toward the quorum, and
once the count reaches the quorum the (possibly empty) reduced result is
returned without raising. -/
theorem c3_strict_quorum_amended (services : List Service) (agreement : Nat)
    (h1 : 1 ≤ agreement)
    (hs : ∀ s ∈ services, ∃ ids, s.behavior 0 = .success ids) :
    (services.length < agreement →
      resolve_one_identifier false agreement 7 services =
        .error (.quorum (notSufficientMsg services.length
          (services.map firstSuccessIds)))) ∧
    (agreement ≤ services.length →
      ∃ r, resolve_one_identifier false agreement 7 services = .ok (some r)) := by
  have h := resolveOneLoop_all_success agreement 7 (by omega) services hs 0
    ⟨0, [], none⟩ (by simpa using h1)
  unfold resolve_one_identifier
  simpa using h

/-- Witness for C3 amended at one service and quorum 1. -/
theorem c3_strict_quorum_amended_witness :
    ∃ r, resolve_one_identifier false 1 7 [svcEmptyOk] = .ok (some r) :=
  (c3_strict_quorum_amended [svcEmptyOk] 1 (by decide)
    (by
      intro s hs
      rw [List.mem_singleton] at hs
      subst hs
      exact ⟨[], rfl⟩)).2 (by decide)

/-! ### Claim C4: silent-mode error substitution -/

/-- C4 counterexample: in silent mode, a non-retriable client error
(BadRequest) and an unreached quorum both make `resolve_one_identifier`
return Python `None` (modelled `.ok none`), not the empty list `.ok (some [])`
the claim asserts. -/
theorem c4_silent_counterexample :
    resolve_one_identifier true 1 7 [svcBadRequest] = .ok none ∧
    resolve_one_identifier true 1 7 [svcBadRequest] ≠ .ok (some []) ∧
    resolve_one_identifier true 2 7 [svcBusy] = .ok none ∧
    resolve_one_identifier true 2 7 [svcBusy] ≠ .ok (some []) := by
  decide

/-- C4 amended: in silent mode `resolve_one_identifier` returns `None`
(modelled `.ok none`, not an empty list) on the claimed failure scenarios,
restricted to the errors the code actually catches: when every service
exhausts its retries so that quorum is unreachable, and when a service fails
with a non-retriable `HTTPClientError`/`HTTPServerError` (second `except`
clause). An error caught by neither `except` clause — the `ValueError` for
an unsupported input kind — propagates even in silent mode. -/
theorem c4_silent_returns_none (services : List Service) (agreement : Nat)
    (h1 : 1 ≤ agreement) :
    ((∀ s ∈ services, (runRetries s.behavior 7).outcome = .exhausted) →
      resolve_one_identifier true agreement 7 services = .ok none) ∧
    (∀ (e : ExcClass) (rest : List Service), inAiohttpErrors e = false →
      isHTTPClientOrServerError e = true →
      resolve_one_identifier true agreement 7
        (Service.mk (fun _ => .exc e) :: rest) = .ok none) ∧
    (∀ rest : List Service,
      resolve_one_identifier true agreement 7
        (Service.mk (fun _ => .exc .valueError) :: rest) =
        .error (.httpExc .valueError)) := by
  refine ⟨?_, ?_, ?_⟩
  · intro hex
    unfold resolve_one_identifier
    rw [resolveOneLoop_all_exhausted true agreement 7 h1 services 0 hex]
    unfold finishResolve
    rw [if_pos (by simpa using h1)]
    rfl
  · intro e rest hne hhttp
    unfold resolve_one_identifier
    rw [resolveOneLoop_cons_raised true agreement 7 _ rest 0 _ e
      (by rw [runRetries_raises _ 7 e rfl hne (by omega)])]
    rw [hhttp]
    rfl
  · intro rest
    unfold resolve_one_identifier
    rw [resolveOneLoop_cons_raised true agreement 7 _ rest 0 _ .valueError
      (by rw [runRetries_raises _ 7 .valueError rfl rfl (by omega)])]
    rfl

/-- Witness for C4 amended: in silent mode at quorum 1, a single always-busy
service (quorum unreachable) and a single BadRequest-failing service both
return `None`. -/
theorem c4_silent_returns_none_witness :
    resolve_one_identifier true 1 7 [svcBusy] = .ok none ∧
    resolve_one_identifier true 1 7 [svcBadRequest] = .ok none :=
  ⟨(c4_silent_returns_none [svcBusy] 1 (by decide)).1
    (by
      intro s hs
      rw [List.mem_singleton] at hs
      subst hs
      decide),
   (c4_silent_returns_none [svcBadRequest] 1 (by decide)).2.1
    .httpBadRequest [] rfl rfl⟩

/-! ### Claim C5: fault classification and retry policy -/

/-- C5 counterexample: a PubChem `PUGREST.Timeout` fault is classified as
`HTTPGatewayTimeout`, which is NOT a member of the `aiohttp_errors` retry
tuple; the retry loop raises it on the first attempt (one attempt, no backoff
sleeps) and strict-mode resolution propagates it — the claim's assertion that
Timeout (likewise ServerError/Unknown) is retried with exponential backoff up
to 7 attempts is false. -/
theorem c5_timeout_not_retried_counterexample :
    classifyFault "PUGREST.Timeout" = some .httpGatewayTimeout ∧
    inAiohttpErrors .httpGatewayTimeout = false ∧
    runRetries (fun _ => .exc .httpGatewayTimeout) 7 =
      ⟨.raised .httpGatewayTimeout, 1, []⟩ ∧
    resolve_one_identifier false 1 7 [svcTimeoutFault] =
      .error (.httpExc .httpGatewayTimeout) := by
  decide

/-- C5 amended: the fault codes map to the exception classes exactly as in
`request` (BadRequest, NotFound, NotAllowed, Timeout, ServerBusy,
Unimplemented, ServerError, Unknown); a NotFound fault yields an empty
property list without retrying; of the classes raised for faults only
`HTTPServiceUnavailable` (ServerBusy) is in the resolver's retriable
`aiohttp_errors` tuple — Timeout, ServerError and Unknown are NOT retried —
and a ServerBusy-failing service is retried with exponential backoff
(sleeping `2 ^ j` seconds on attempt `j`) for exactly `n` attempts, the
attempt count never exceeding the retry budget. -/
theorem c5_fault_classification_amended :
    (classifyFault "PUGREST.BadRequest" = some .httpBadRequest ∧
     classifyFault "PUGREST.NotFound" = some .httpNotFound ∧
     classifyFault "PUGREST.NotAllowed" = some .httpMethodNotAllowed ∧
     classifyFault "PUGREST.Timeout" = some .httpGatewayTimeout ∧
     classifyFault "PUGREST.ServerBusy" = some .httpServiceUnavailable ∧
     classifyFault "PUGREST.Unimplemented" = some .httpNotImplemented ∧
     classifyFault "PUGREST.ServerError" = some .httpInternalServerError ∧
     classifyFault "PUGREST.Unknown" = some .httpInternalServerError) ∧
    (∀ props, get_properties_model ⟨some "PUGREST.NotFound", props⟩ = .ok []) ∧
    (inAiohttpErrors .httpServiceUnavailable = true ∧
     inAiohttpErrors .httpBadRequest = false ∧
     inAiohttpErrors .httpMethodNotAllowed = false ∧
     inAiohttpErrors .httpNotImplemented = false ∧
     inAiohttpErrors .httpGatewayTimeout = false ∧
     inAiohttpErrors .httpInternalServerError = false) ∧
    (∀ n, runRetries (fun _ => .exc .httpServiceUnavailable) n =
      ⟨.exhausted, n, (List.range n).map (fun j => 2 ^ j)⟩) ∧
    (∀ (b : Nat → AttemptResult) (n : Nat), (runRetries b n).attempts ≤ n) := by
  refine ⟨by decide, ?_, by decide, runRetries_busy, ?_⟩
  · intro props
    rfl
  · intro b n
    exact runRetriesFrom_attempts_le b n 0

/-! ### Batching and result assembly (src/pura/resolvers.py, `_resolve`,
lines 109-169)

Within a batch, `_resolve` awaits `asyncio.as_completed(tasks)`, which yields
the per-input results in task COMPLETION order. The completion order of batch
`b` is embedded as an explicit index list `orders b` (a permutation of the
batch positions chosen by the scheduler); `[await f for f in batch_bar]` is
then the results read off in that order. -/

def asCompletedResults {α : Type} (dflt : α) (results : List α)
    (order : List Nat) : List α :=
  order.map (fun i => results.getD i dflt)

/-- `CompoundResolver._resolve` (resolvers.py lines 109-169): default batch
size `100 if n >= 100 else n` (line 136), number of batches `n // batch_size`
plus one for a remainder (lines 137-138, a Python `ZeroDivisionError` when
the batch size is zero), sequential batches slicing
`input_identifiers[start : start + batch_size]`, one task per input in the
batch, and results extended in `as_completed` (completion) order. The
per-input resolution is abstracted as `f`. -/
def pyResolve {ι α : Type} (dflt : α) (f : ι → α) (inputs : List ι)
    (batchSize? : Option Nat) (orders : Nat → List Nat) :
    Except String (List α) :=
  let n := inputs.length
  let batchSize := batchSize?.getD (if 100 ≤ n then 100 else n)
  if batchSize = 0 then .error "ZeroDivisionError"
  else
    let nBatches := n / batchSize + (if n % batchSize = 0 then 0 else 1)
    .ok (((List.range nBatches).map (fun b =>
      asCompletedResults dflt
        (((inputs.drop (b * batchSize)).take batchSize).map f)
        (orders b))).flatten)

/-- C1: the claim says `resolve`/`_resolve` return the i-th result at the
i-th position regardless of task completion order, but `_resolve` extends the
output in `asyncio.as_completed` order. With two inputs in one batch whose
tasks complete in the order (second, first) — a legitimate scheduling, here
`orders 0 = [1, 0]` — the output is the reversal of the input-aligned result
list. -/
theorem c1_as_completed_reorders :
    pyResolve "" (fun s => String.append s "!") ["a", "b"] none
      (fun _ => [1, 0]) = .ok ["b!", "a!"] ∧
    (["b!", "a!"] : List String) ≠ ["a!", "b!"] := by
  decide

/-- C10: calling `_resolve` with an empty input list and no explicit batch
size makes the default batch size `0`, and the batch-count division
`n_identifiers // batch_size` raises `ZeroDivisionError` — the call fails
with an arithmetic error for every completion-order schedule instead of
returning an empty result list. -/
theorem c10_empty_input_zero_division (orders : Nat → List Nat) :
    pyResolve "" (fun s : String => s) [] none orders =
      .error "ZeroDivisionError" ∧
    ∀ r, pyResolve "" (fun s : String => s) [] none orders ≠ .ok r := by
  refine ⟨rfl, ?_⟩
  intro r h
  exact Except.noConfusion h

/-! ### PubChem autocomplete fallback (src/pura/services/pubchem.py,
`PubChem.resolve_compound`, lines 154-192)

The environment fixes, per queue value, the output identifiers the property
query produces (steps 2-3 folded into one function, as C6 only concerns the
fallback control flow) and the autocomplete suggestions. The `while not
queue.empty()` loop is given fuel because the source loop need not
terminate; `none` models a run that exceeds the fuel. -/

structure PubChemEnv where
  query : String → List CompoundIdentifier
  suggest : String → List String

/-- The queue loop of `resolve_compound` (pubchem.py lines 158-191):
dequeue a value, run the property query, and — when it produced nothing,
autocomplete is enabled and `autocomplete_tried` is false — enqueue the
autocomplete suggestions (FIFO). The loop result pairs the final
`output_identifiers` with the number of autocomplete invocations.
`autocomplete_tried` is initialized to `False` (line 157) and never assigned
afterwards, which this model reproduces by passing `tried` along unchanged. -/
def resolveCompoundLoop (autocompleteOn : Bool) (env : PubChemEnv) :
    Nat → List String → Bool → Nat → List CompoundIdentifier →
    Option (List CompoundIdentifier × Nat)
  | _, [], _, acCount, out => some (out, acCount)
  | 0, _ :: _, _, _, _ => none
  | fuel + 1, v :: rest, tried, acCount, _ =>
    let out := env.query v
    if out.isEmpty && autocompleteOn && !tried then
      resolveCompoundLoop autocompleteOn env fuel (rest ++ env.suggest v)
        tried (acCount + 1) out
    else
      resolveCompoundLoop autocompleteOn env fuel rest tried acCount out

/-- `PubChem.resolve_compound` from the search step on (pubchem.py lines
154-192): queue seeded with the input value, `autocomplete_tried = False`,
no autocomplete calls yet. -/
def resolve_compound_model (autocompleteOn : Bool) (env : PubChemEnv)
    (inputValue : String) (fuel : Nat) :
    Option (List CompoundIdentifier × Nat) :=
  resolveCompoundLoop autocompleteOn env fuel [inputValue] false 0 []

/-- Environment for the C6 failing input: every property query is empty,
autocomplete on "a" suggests "b", on anything else nothing. -/
def c6Env : PubChemEnv :=
  ⟨fun _ => [], fun v => if v = "a" then ["b"] else []⟩

/-- Environment whose autocomplete suggests the input itself, making the
queue loop run forever. -/
def c6LoopEnv : PubChemEnv := ⟨fun _ => [], fun _ => ["a"]⟩

/-- C6: `autocomplete_tried` is never set to `True`, so the autocomplete
fallback is NOT attempted at most once per `resolve_compound` call: with
input "a" (no property results, suggestion "b" that again has no results)
autocomplete is invoked twice in one resolution, and with an environment
suggesting the input itself the loop never terminates (fuel runs out for
every bound tried here). -/
theorem c6_autocomplete_fires_twice :
    resolve_compound_model true c6Env "a" 10 = some ([], 2) ∧
    ¬ (2 ≤ 1) ∧
    resolve_compound_model true c6LoopEnv "a" 10 = none := by
  decide

end Pura
